import Mathlib

/-!
Shallow embedding of the cookie-harvesting login-automation service
(`lib/cookie-extractor.ts` and `app/api/start/route.ts`).

Strings are modelled as `List Char` (the JS string is a sequence of
characters; all operations used by the code — length, startsWith, split,
join, substring search, toLower — are character-wise).  Pure helpers from
`cookie-extractor.ts` are translated function-by-function; the stateful
route handler `POST` is embedded as a pure function over an environment
record that fixes the outcome of every external effect (browser launch,
navigation attempts, field discovery, the two cookie-extraction reads and
the webhook responses), mirroring its `try`/`catch` structure.
-/

namespace LoginAutomation

/-- The `CookieResult` interface of `cookie-extractor.ts` (fields as in the
source; optional fields are `Option`). -/
structure Cookie where
  name : List Char
  value : List Char
  domain : List Char
  path : Option (List Char)
  expires : Option Int
  httpOnly : Option Bool
  secure : Option Bool
  sameSite : Option (List Char)
deriving DecidableEq, Repr

/-- Convenience constructor used for concrete instances: only `name` and
`value` matter to the classification and serialization helpers. -/
def mkCookie (n v : String) : Cookie :=
  ⟨n.toList, v.toList, [], none, none, none, none, none⟩

/-- The `CRITICAL_PATTERNS` table of `cookie-extractor.ts` (lines 28-54).
Every regex in the source is a case-insensitive literal (the only escapes
are `\.` which denote a literal dot), tested with `pattern.test(name)`,
i.e. a case-insensitive substring search; we therefore store the lowercase
literal of each pattern and model the test as lowercase infix search. -/
def CRITICAL_PATTERNS : List (List Char) :=
  ["session", "sid", "sessionid", "jsessionid", "phpsessid",
   "asp.net_sessionid", "auth", "token", "jwt", "access_token",
   "refresh_token", "user_token", "csrf", "xsrf", "crumb", "_token",
   "connect.sid", "laravel_session", "serverid", "awsalb", "cf_clearance",
   "__secure", "__host", "leetcode_session", "ingresscookie"].map
    String.toList

/-- Substring search (JS `String.prototype.includes` / an unanchored
literal regex test): some suffix of `s` starts with `pat`. -/
def listContains (pat : List Char) : List Char → Bool
  | [] => pat.isEmpty
  | c :: rest => pat.isPrefixOf (c :: rest) || listContains pat rest

/-- `CRITICAL_PATTERNS.some((pattern) => pattern.test(cookie.name))`:
case-insensitive substring match of some fixed pattern. -/
def matchesPattern (name : List Char) : Bool :=
  CRITICAL_PATTERNS.any (fun p => listContains p (name.map Char.toLower))

/-- Character class `[A-Za-z0-9+/=_-]` of the `isEncoded` regex. -/
def isB64Char (c : Char) : Bool :=
  (decide ('A' ≤ c) && decide (c ≤ 'Z')) ||
  (decide ('a' ≤ c) && decide (c ≤ 'z')) ||
  (decide ('0' ≤ c) && decide (c ≤ '9')) ||
  (c == '+') || (c == '/') || (c == '=') || (c == '_') || (c == '-')

/-- The per-cookie test of `identifyCriticalCookies` (lines 145-160):
`matchesPattern || isLongValue || isJWT || isEncoded`.  `isEncoded` is
`/^[A-Za-z0-9+/=_-]+$/.test(value) && value.length > 50`; the `+` of the
regex demands a nonempty value. -/
def isCriticalCookie (c : Cookie) : Bool :=
  matchesPattern c.name ||
  decide (c.value.length > 80) ||
  List.isPrefixOf "eyJ".toList c.value ||
  (!c.value.isEmpty && c.value.all isB64Char && decide (c.value.length > 50))

/-- One step of the `cookies.forEach` loop of `identifyCriticalCookies`:
`critical.add(cookie.name)` on a JS `Set` inserts the name if absent (the
final `Array.from` lists insertion order, i.e. first occurrences). -/
def criticalStep (acc : List (List Char)) (c : Cookie) : List (List Char) :=
  if isCriticalCookie c = true ∧ c.name ∉ acc then acc ++ [c.name]
  else acc

/-- `identifyCriticalCookies` (`cookie-extractor.ts` lines 142-164). -/
def identifyCriticalCookies (cookies : List Cookie) : List (List Char) :=
  cookies.foldl criticalStep []

/-- Session-token record `{ name, value, length }` returned by
`extractSessionTokens`. -/
structure SessionToken where
  name : List Char
  value : List Char
  length : Nat
deriving DecidableEq, Repr

/-- Ordered insertion for the comparator `(a, b) => b.length - a.length`:
an element is placed after every element of at least its length, giving a
non-increasing ordering by `length` (JS `sort` fixes no algorithm; any
comparator-consistent reordering has this shape). -/
def insertDesc (t : SessionToken) : List SessionToken → List SessionToken
  | [] => [t]
  | u :: us => if t.length ≤ u.length then u :: insertDesc t us
               else t :: u :: us

/-- `cookies.sort((a, b) => b.length - a.length)` modelled as insertion
sort with the descending-by-length comparator. -/
def sortByLengthDesc (l : List SessionToken) : List SessionToken :=
  l.foldr insertDesc []

/-- `extractSessionTokens` (`cookie-extractor.ts` lines 171-180): filter
value length > 100, project to `{name, value, length}`, sort descending by
length. -/
def extractSessionTokens (cookies : List Cookie) : List SessionToken :=
  sortByLengthDesc
    ((cookies.filter (fun c => decide (c.value.length > 100))).map
      (fun c => ⟨c.name, c.value, c.value.length⟩))

/-- `buildCookieString` (`cookie-extractor.ts` lines 187-189):
`cookies.map((c) => name=value).join("; ")` — the pieces of the join,
before interleaving the separator. -/
def cookiePiece (c : Cookie) : List Char :=
  c.name ++ '=' :: c.value

/-- JS `Array.prototype.join("; ")`. -/
def joinSepSC : List (List Char) → List Char
  | [] => []
  | [s] => s
  | s :: t :: rest => s ++ ';' :: ' ' :: joinSepSC (t :: rest)

/-- `buildCookieString` (`cookie-extractor.ts` lines 187-189). -/
def buildCookieString (cookies : List Cookie) : List Char :=
  joinSepSC (cookies.map cookiePiece)

/-- Prepend a character to the first piece of a split result (helper for
the string-split functions below). -/
def consHead (c : Char) : List (List Char) → List (List Char)
  | [] => [[c]]
  | p :: ps => (c :: p) :: ps

/-- JS `String.prototype.split("; ")`: cut at each leftmost-first,
non-overlapping occurrence of the two-character separator.  The claim's
re-splitting step (the source never re-parses its own cookie string). -/
def splitSemi : List Char → List (List Char)
  | [] => [[]]
  | [c] => [[c]]
  | c :: d :: rest =>
    if c = ';' ∧ d = ' ' then [] :: splitSemi rest
    else consHead c (splitSemi (d :: rest))

/-- Whether a character sequence contains the substring `"; "` (the
side condition under which `"; "`-joining is injective). -/
def containsSep : List Char → Bool
  | [] => false
  | [_] => false
  | c :: d :: rest =>
    if c = ';' ∧ d = ' ' then true else containsSep (d :: rest)

/-- Split a piece at its first `'='` (JS `piece.split("=")` with the head
as name and the remaining segments re-joined by `"="` as value; a piece
with no `'='` yields an empty value). -/
def splitFirstEq : List Char → List Char × List Char
  | [] => ([], [])
  | c :: rest =>
    if c = '=' then ([], rest)
    else ((splitFirstEq rest).1.cons c, (splitFirstEq rest).2)

/-- The claim's round-trip: split the serialized string on `"; "`, then
split each piece on its first `'='`. -/
def resplitCookieString (s : List Char) : List (List Char × List Char) :=
  (splitSemi s).map splitFirstEq

/-- JS `String.prototype.split(";")` (single-character separator), used by
`extractViaJavaScript` to cut `document.cookie`. -/
def splitSemicolon : List Char → List (List Char)
  | [] => [[]]
  | c :: rest =>
    if c = ';' then [] :: splitSemicolon rest
    else consHead c (splitSemicolon rest)

/-- The whitespace class of JS `String.prototype.trim` (restricted to the
ASCII whitespace that can occur in a cookie string). -/
def isJsSpace (c : Char) : Bool :=
  c == ' ' || c == '\t' || c == '\n' || c == '\r'

/-- JS `String.prototype.trim`. -/
def jsTrim (s : List Char) : List Char :=
  ((s.dropWhile isJsSpace).reverse.dropWhile isJsSpace).reverse

/-- `extractAllCookies` (`cookie-extractor.ts` lines 61-78): the whole
body sits in a `try`; the `await context.cookies()` effect is modelled by
an `Except`-valued outcome.  On success each raw cookie is field-copied;
the `catch` returns `[]`. -/
def extractAllCookies (ctxOutcome : Except String (List Cookie)) :
    List Cookie :=
  match ctxOutcome with
  | .ok cookies =>
    cookies.map (fun c =>
      ⟨c.name, c.value, c.domain, c.path, c.expires, c.httpOnly, c.secure,
       c.sameSite⟩)
  | .error _ => []

/-- `extractViaJavaScript` (`cookie-extractor.ts` lines 110-135): the
`page.evaluate(() => document.cookie)` effect is the `Except`-valued
outcome, `hostname` is `window.location.hostname`.  On success the cookie
string is split on `";"`, blank pieces are dropped, and each piece is
trimmed and cut at its first `"="`; the `catch` returns `[]`. -/
def extractViaJavaScript (evalOutcome : Except String (List Char))
    (hostname : List Char) : List Cookie :=
  match evalOutcome with
  | .ok cookieString =>
    ((splitSemicolon cookieString).filter
        (fun c => !(jsTrim c).isEmpty)).map
      (fun c =>
        let t := jsTrim c
        let nv := splitFirstEq t
        ⟨jsTrim nv.1, jsTrim nv.2, hostname, some "/".toList, none, none,
         none, none⟩)
  | .error _ => []

/-- The `LoginRequest` body of `app/api/start/route.ts` (lines 11-17); a
field absent from the JSON body is `none`. -/
structure LoginRequest where
  targetUrl : Option String
  loginUrl : Option String
  username : Option String
  password : Option String
  webhookUrl : Option String
deriving DecidableEq

/-- JS truthiness of an optional string field: `undefined` and `""` are
falsy. -/
def truthy : Option String → Bool
  | none => false
  | some s => !s.isEmpty

/-- The `!targetUrl || !loginUrl || !username || !password || !webhookUrl`
check (route.ts line 37). -/
def validRequest (req : LoginRequest) : Bool :=
  truthy req.targetUrl && truthy req.loginUrl && truthy req.username &&
  truthy req.password && truthy req.webhookUrl

/-- The webhook-path-marker check (route.ts line 41):
`webhookUrl.includes("/webhook/") || webhookUrl.includes("/webhook-test/")`. -/
def webhookMarkerOk (webhookUrl : String) : Bool :=
  listContains "/webhook/".toList webhookUrl.toList ||
  listContains "/webhook-test/".toList webhookUrl.toList

/-- Outcome of one webhook `fetch`: an HTTP response (status and body
text) or a thrown transport error. -/
inductive WebhookResp where
  | http (status : Nat) (body : String)
  | fault (msg : String)

/-- `response.ok`: status in the 2xx range (precisely, 200-299). -/
def respOk : WebhookResp → Bool
  | .http s _ => decide (200 ≤ s) && decide (s < 300)
  | .fault _ => false

/-- Whether the fetch threw (took the `catch` branch of the loop body). -/
def isFault : WebhookResp → Bool
  | .http _ _ => false
  | .fault _ => true

/-- The error string recorded for a failed attempt: on a non-2xx response
`HTTP {status}: {body.substring(0, 100)}` (route.ts line 448, the body
excerpt truncated to 100 characters), on a transport error its message. -/
def webhookFailureMsg : WebhookResp → Option String
  | .http s b => some ("HTTP " ++ toString s ++ ": " ++ (b.take 100))
  | .fault m => some m

/-- Result of the webhook delivery loop: `webhookSuccess`, the last
`webhookError`, how many attempts were made, and how many 2-second retry
delays were performed (`setTimeout` runs only in the `catch` branch,
route.ts lines 454-457). -/
structure WLoop where
  sent : Bool
  lastError : Option String
  attempts : Nat
  delays : Nat
deriving DecidableEq

/-- The webhook retry loop (route.ts lines 427-459), unrolled by remaining
attempt count.  `attempt` is the 1-based attempt number about to run;
`attempt + remaining = 4` at every call starting from `runWebhook`.  A 2xx
response breaks out with success; a non-2xx response records the truncated
error and loops immediately; a transport error records the message and,
when this is not the final attempt, sleeps once before looping. -/
def runWebhookAux (resps : Nat → WebhookResp) :
    Nat → Nat → Option String → Nat → WLoop
  | _, 0, err, d => ⟨false, err, 3, d⟩
  | attempt, remaining + 1, err, d =>
    match resps attempt with
    | .http s b =>
      if 200 ≤ s ∧ s < 300 then ⟨true, err, attempt, d⟩
      else runWebhookAux resps (attempt + 1) remaining
        (webhookFailureMsg (.http s b)) d
    | .fault m =>
      runWebhookAux resps (attempt + 1) remaining (some m)
        (if 1 ≤ remaining then d + 1 else d)

/-- The webhook delivery loop for `attempt = 1..3`. -/
def runWebhook (resps : Nat → WebhookResp) : WLoop :=
  runWebhookAux resps 1 3 none 0

/-- The route handler's cookie merge (route.ts line 365):
`contextCookies.length >= jsCookies.length ? contextCookies : jsCookies`. -/
def routeMergeCookies (contextCookies jsCookies : List Cookie) :
    List Cookie :=
  if contextCookies.length ≥ jsCookies.length then contextCookies
  else jsCookies

/-- The route handler's reported method (route.ts line 366): `"context"`
when the context strategy wins (this is the spec's `context` value) and
`"javascript"` otherwise (the spec's `injected-script` value). -/
def routeMergeMethod (contextCookies jsCookies : List Cookie) : String :=
  if contextCookies.length ≥ jsCookies.length then "context"
  else "javascript"

/-- The library pipeline's cookie merge (`cookie-extractor.ts` line 366,
inside `performCompleteExtraction`):
`contextCookies.length > 0 ? contextCookies : jsCookies`. -/
def libMergeCookies (contextCookies jsCookies : List Cookie) :
    List Cookie :=
  if contextCookies.length > 0 then contextCookies else jsCookies

/-- Environment record fixing the outcome of every external effect of one
`POST` run.  `contextCookies`/`jsCookies` are the values produced by the
(total, never-throwing) `extractAllCookies`/`extractViaJavaScript`. -/
structure Env where
  importOk : Bool
  launchOk : Bool
  contextOk : Bool
  navOutcomes : List Bool
  usernameFieldFound : Bool
  passwordFieldFound : Bool
  submitFound : Bool
  contextCookies : List Cookie
  jsCookies : List Cookie
  webhookResps : Nat → WebhookResp

/-- The navigation retry loop (route.ts lines 109-133): up to 3 `goto`
attempts; returns whether one succeeded and how many were made. -/
def navTry (outcomes : List Bool) : Bool × Nat :=
  if outcomes.getD 0 false then (true, 1)
  else if outcomes.getD 1 false then (true, 2)
  else if outcomes.getD 2 false then (true, 3)
  else (false, 3)

/-- The data assembled by a successful inner `try` body of `POST`. -/
structure InnerOk where
  allCookies : List Cookie
  method : String
  criticalNames : List (List Char)
  tokens : List SessionToken
  cookieString : List Char
  webhook : WLoop

/-- The inner `try` body of `POST` (route.ts lines 105-490), from the
navigation loop to the success payload.  An `Except.error` is a thrown
`Error` (caught by the inner `catch`); messages are the source's literals.
Soft waits (`networkidle`, settle pauses, the failure-word scan, the
best-effort `targetUrl` navigation) never alter control flow and are
elided. -/
def innerRun (env : Env) : Except String InnerOk :=
  if (navTry env.navOutcomes).1 = false then
    .error "Failed to load login page after 3 attempts"
  else if env.usernameFieldFound = false then
    .error "Could not find username/email input field. The page may have a different structure or be blocking automation."
  else if env.passwordFieldFound = false then
    .error "Could not find password input field"
  else if env.submitFound = false then
    .error "Could not find submit button"
  else
    let allCookies := routeMergeCookies env.contextCookies env.jsCookies
    let method := routeMergeMethod env.contextCookies env.jsCookies
    if allCookies.length = 0 then
      .error "No cookies extracted from any method. Login may have failed or cookies are blocked."
    else
      .ok ⟨allCookies, method, identifyCriticalCookies allCookies,
        extractSessionTokens allCookies, buildCookieString allCookies,
        runWebhook env.webhookResps⟩

/-- The success-path message of the `POST` response (route.ts line 466). -/
def successMessage (r : InnerOk) : String :=
  "Successfully extracted " ++ toString r.allCookies.length ++
  " cookies (" ++ toString r.criticalNames.length ++ " critical, " ++
  toString r.tokens.length ++ " session tokens)" ++
  (if r.webhook.sent then " and sent to webhook" else "")

/-- Observable outcome of one `POST` run: the HTTP response fields plus
resource/effect counters (how often `browser.close()` resolved, how many
navigations and webhook attempts ran). -/
structure SimResult where
  httpStatus : Nat
  status : String
  message : String
  webhookSent : Bool
  webhookError : Option String
  extractionMethod : Option String
  browserAcquired : Bool
  closeCount : Nat
  navAttempts : Nat
  webhookAttempts : Nat
  webhookDelays : Nat

/-- The `POST` handler (route.ts lines 29-517).  Branches in source
order: field validation (line 37) and webhook-marker validation (line 41)
return 400 before any browser work; a failed `playwright` import returns
500 (line 57); a failed `chromium.launch` throws with `browser` still
null, so the outer `catch` closes nothing; a failure between `launch` and
the inner `try` (context/page creation) is closed once by the outer
`catch`; a throw inside the inner `try` is closed once by the inner
`catch` (lines 491-497), which nulls `browser` so the outer `catch` skips
it; the success path closes once at line 461 before responding. -/
def routePOST (req : LoginRequest) (env : Env) : SimResult :=
  if validRequest req = false then
    ⟨400, "error", "Missing required fields", false, none, none, false, 0,
     0, 0, 0⟩
  else if webhookMarkerOk (req.webhookUrl.getD "") = false then
    ⟨400, "error", "Invalid webhook URL. Use your n8n webhook URL like: https://your-n8n.app.n8n.cloud/webhook/xxxxx",
     false, none, none, false, 0, 0, 0, 0⟩
  else if env.importOk = false then
    ⟨500, "error", "Playwright is not available. Ensure the app is deployed with Docker on Render.",
     false, none, none, false, 0, 0, 0, 0⟩
  else if env.launchOk = false then
    ⟨500, "error", "Browser launch failed", false, none, none, false, 0,
     0, 0, 0⟩
  else if env.contextOk = false then
    ⟨500, "error", "Browser context creation failed", false, none, none,
     true, 1, 0, 0, 0⟩
  else
    match innerRun env with
    | .error msg =>
      ⟨500, "error", msg, false, none, none, true, 1,
       (navTry env.navOutcomes).2, 0, 0⟩
    | .ok r =>
      ⟨200, "success", successMessage r, r.webhook.sent,
       (if r.webhook.sent then none else r.webhook.lastError),
       some r.method, true, 1, (navTry env.navOutcomes).2,
       r.webhook.attempts, r.webhook.delays⟩

/-! ## Theorems -/

/-- Every `routePOST` run either never acquired the browser and closed it
zero times, or acquired it and closed it exactly once. -/
theorem routePOST_close_inv (req : LoginRequest) (env : Env) :
    ((routePOST req env).browserAcquired = false ∧
      (routePOST req env).closeCount = 0) ∨
    ((routePOST req env).browserAcquired = true ∧
      (routePOST req env).closeCount = 1) := by
  unfold routePOST
  repeat' split
  all_goals simp

/-- C1 (amended): the route handler's merge picks the strategy with the
larger cookie count, ties favoring the context strategy, and reports the
winner as the extraction method (`"context"` / `"javascript"`, the spec's
context / injected-script). -/
theorem routeMerge_picks_larger_tie_context (ctx js : List Cookie) :
    (js.length ≤ ctx.length ∧ routeMergeCookies ctx js = ctx ∧
      routeMergeMethod ctx js = "context") ∨
    (ctx.length < js.length ∧ routeMergeCookies ctx js = js ∧
      routeMergeMethod ctx js = "javascript") := by
  by_cases h : ctx.length ≥ js.length
  · exact Or.inl ⟨h, by simp [routeMergeCookies, h],
      by simp [routeMergeMethod, h]⟩
  · exact Or.inr ⟨Nat.lt_of_not_le h, by simp [routeMergeCookies, h],
      by simp [routeMergeMethod, h]⟩

/-- C1 (counterexample): the library pipeline `performCompleteExtraction`
merges with `contextCookies.length > 0 ? contextCookies : jsCookies`, so
with 1 context cookie and 2 injected-script cookies it selects the
context result even though the injected-script strategy returned more. -/
theorem libMerge_keeps_smaller_context_counterexample :
    ([mkCookie "a" "1"] : List Cookie).length <
      ([mkCookie "b" "2", mkCookie "c" "3"] : List Cookie).length ∧
    libMergeCookies [mkCookie "a" "1"]
        [mkCookie "b" "2", mkCookie "c" "3"] = [mkCookie "a" "1"] ∧
    libMergeCookies [mkCookie "a" "1"]
        [mkCookie "b" "2", mkCookie "c" "3"] ≠
      [mkCookie "b" "2", mkCookie "c" "3"] := by
  decide

/-- C6: whenever a `routePOST` run acquired the browser session, it is
closed exactly once before the result surfaces, on every exit path
(success, context-creation fault, navigation failure after 3 retries,
field-discovery failure, empty extraction). -/
theorem browser_session_released_once (req : LoginRequest) (env : Env)
    (h : (routePOST req env).browserAcquired = true) :
    (routePOST req env).closeCount = 1 := by
  rcases routePOST_close_inv req env with ⟨h1, _⟩ | ⟨_, h2⟩
  · rw [h1] at h; cases h
  · exact h2

/-- C8: a request with a missing/empty required field or a webhook URL
without a webhook-path marker is rejected with HTTP 400 before any
browser session is acquired: no navigation attempt, no close, no webhook
attempt. -/
theorem validation_rejected_before_browser (req : LoginRequest)
    (env : Env)
    (h : validRequest req = false ∨
      webhookMarkerOk (req.webhookUrl.getD "") = false) :
    (routePOST req env).httpStatus = 400 ∧
    (routePOST req env).status = "error" ∧
    (routePOST req env).browserAcquired = false ∧
    (routePOST req env).closeCount = 0 ∧
    (routePOST req env).navAttempts = 0 ∧
    (routePOST req env).webhookAttempts = 0 := by
  by_cases h1 : validRequest req = false
  · simp [routePOST, h1]
  · have h2 : webhookMarkerOk (req.webhookUrl.getD "") = false :=
      h.resolve_left h1
    simp [routePOST, h1, h2]

/-- C10: both extraction strategies are total functions of their effect
outcome — a thrown internal failure yields `[]`, exactly the value a
genuinely empty cookie jar (or empty `document.cookie`) yields, so the
pipeline's zero-cookie check cannot distinguish the two. -/
theorem extraction_strategies_never_throw (e : String) (h : List Char) :
    extractAllCookies (Except.error e) = [] ∧
    extractViaJavaScript (Except.error e) h = [] ∧
    extractAllCookies (Except.error e) = extractAllCookies (Except.ok []) ∧
    extractViaJavaScript (Except.error e) h =
      extractViaJavaScript (Except.ok []) h := by
  exact ⟨rfl, rfl, rfl, rfl⟩

/-- One `forEach` step of `identifyCriticalCookies` adds exactly the name
of a critical cookie not yet present. -/
theorem mem_criticalStep (acc : List (List Char)) (c : Cookie)
    (n : List Char) :
    n ∈ criticalStep acc c ↔
      n ∈ acc ∨ (isCriticalCookie c = true ∧ c.name = n) := by
  unfold criticalStep
  split
  next hcond =>
    obtain ⟨hcrit, _⟩ := hcond
    simp only [List.mem_append, List.mem_singleton]
    constructor
    · rintro (h | h)
      · exact Or.inl h
      · exact Or.inr ⟨hcrit, h.symm⟩
    · rintro (h | ⟨_, h⟩)
      · exact Or.inl h
      · exact Or.inr h.symm
  next hcond =>
    push_neg at hcond
    constructor
    · exact Or.inl
    · rintro (h | ⟨hcrit, heq⟩)
      · exact h
      · exact heq ▸ hcond hcrit

/-- Membership after folding `criticalStep` over a cookie list: a name is
collected iff it was already in the accumulator or some cookie of the
list is critical and carries it. -/
theorem mem_foldl_criticalStep (cs : List Cookie) :
    ∀ (acc : List (List Char)) (n : List Char),
      n ∈ cs.foldl criticalStep acc ↔
        n ∈ acc ∨ ∃ c ∈ cs, isCriticalCookie c = true ∧ c.name = n := by
  induction cs with
  | nil => intro acc n; simp
  | cons c cs ih =>
    intro acc n
    rw [List.foldl_cons, ih, mem_criticalStep]
    simp only [List.mem_cons, exists_eq_or_imp]
    tauto

/-- The per-cookie criticality test spelled out as the spec's four OR'd
signals (the regex `+` requirement of `isEncoded` is subsumed by the
length bound). -/
theorem isCriticalCookie_iff (c : Cookie) :
    isCriticalCookie c = true ↔
      (matchesPattern c.name = true ∨ 80 < c.value.length ∨
       List.isPrefixOf "eyJ".toList c.value = true ∨
       (c.value.all isB64Char = true ∧ 50 < c.value.length)) := by
  unfold isCriticalCookie
  simp only [Bool.or_eq_true, Bool.and_eq_true, decide_eq_true_eq,
    Bool.not_eq_true']
  rw [or_assoc, or_assoc]
  refine or_congr_right (or_congr_right (or_congr_right ?_))
  constructor
  · rintro ⟨⟨_, hall⟩, hlen⟩
    exact ⟨hall, hlen⟩
  · rintro ⟨hall, hlen⟩
    refine ⟨⟨?_, hall⟩, hlen⟩
    rcases hv : c.value with _ | ⟨a, l⟩
    · rw [hv] at hlen; simp at hlen
    · rfl

/-- C2: a name is in the critical set iff some cookie of the sequence
carries it and satisfies at least one of the four independent signals:
pattern match on the name, value length over 80, value starting with
`eyJ`, or base64/url-safe value longer than 50 (OR semantics). -/
theorem identifyCriticalCookies_mem_iff (cookies : List Cookie)
    (n : List Char) :
    n ∈ identifyCriticalCookies cookies ↔
      ∃ c ∈ cookies, c.name = n ∧
        (matchesPattern c.name = true ∨ 80 < c.value.length ∨
         List.isPrefixOf "eyJ".toList c.value = true ∨
         (c.value.all isB64Char = true ∧ 50 < c.value.length)) := by
  rw [identifyCriticalCookies, mem_foldl_criticalStep]
  simp only [List.not_mem_nil, false_or]
  constructor
  · rintro ⟨c, hc, hcrit, hname⟩
    exact ⟨c, hc, hname, (isCriticalCookie_iff c).mp hcrit⟩
  · rintro ⟨c, hc, hname, hsig⟩
    exact ⟨c, hc, (isCriticalCookie_iff c).mpr hsig, hname⟩

/-- Folding `criticalStep` over cookies whose critical names are already
collected changes nothing. -/
theorem foldl_criticalStep_noop (cs : List Cookie)
    (acc : List (List Char))
    (h : ∀ c ∈ cs, isCriticalCookie c = true → c.name ∈ acc) :
    cs.foldl criticalStep acc = acc := by
  induction cs generalizing acc with
  | nil => rfl
  | cons c cs ih =>
    rw [List.foldl_cons]
    have hstep : criticalStep acc c = acc := by
      unfold criticalStep
      rw [if_neg]
      rintro ⟨hcrit, hnot⟩
      exact hnot (h c (by simp) hcrit)
    rw [hstep]
    exact ih acc (fun c' hc' => h c' (by simp [hc']))

/-- C9: `identifyCriticalCookies` is monotone — appending a cookie whose
name matches a critical pattern never removes a name from the critical
set — and idempotent: re-processing the same cookies (folding the input
in a second time) yields the very same critical list. -/
theorem identifyCriticalCookies_monotone_idem (cookies : List Cookie)
    (x : Cookie) (_hx : matchesPattern x.name = true) :
    (∀ n ∈ identifyCriticalCookies cookies,
        n ∈ identifyCriticalCookies (cookies ++ [x])) ∧
    identifyCriticalCookies (cookies ++ cookies) =
      identifyCriticalCookies cookies := by
  constructor
  · intro n hn
    rw [identifyCriticalCookies, mem_foldl_criticalStep] at hn ⊢
    rcases hn with h | ⟨c, hc, hcrit, hname⟩
    · simp at h
    · exact Or.inr ⟨c, List.mem_append_left _ hc, hcrit, hname⟩
  · rw [identifyCriticalCookies, List.foldl_append]
    apply foldl_criticalStep_noop
    intro c hc hcrit
    rw [mem_foldl_criticalStep]
    exact Or.inr ⟨c, hc, hcrit, rfl⟩

/-- Witness for C9 at a concrete input: a pattern-named cookie appended
to a singleton jar. -/
theorem identifyCriticalCookies_monotone_idem_witness :
    (∀ n ∈ identifyCriticalCookies [mkCookie "foo" "bar"],
        n ∈ identifyCriticalCookies
          ([mkCookie "foo" "bar"] ++ [mkCookie "sessionid" "v"])) ∧
    identifyCriticalCookies
        ([mkCookie "foo" "bar"] ++ [mkCookie "foo" "bar"]) =
      identifyCriticalCookies [mkCookie "foo" "bar"] :=
  identifyCriticalCookies_monotone_idem [mkCookie "foo" "bar"]
    (mkCookie "sessionid" "v") (by decide)

/-- Ordered insertion permutes the inserted token to the front. -/
theorem insertDesc_perm (t : SessionToken) (l : List SessionToken) :
    List.Perm (insertDesc t l) (t :: l) := by
  induction l with
  | nil => exact List.Perm.refl _
  | cons u us ih =>
    unfold insertDesc
    split
    · exact (ih.cons u).trans (List.Perm.swap t u us)
    · exact List.Perm.refl _

/-- The descending insertion sort permutes its input. -/
theorem sortByLengthDesc_perm (l : List SessionToken) :
    List.Perm (sortByLengthDesc l) l := by
  induction l with
  | nil => exact List.Perm.refl _
  | cons t l ih => exact (insertDesc_perm t _).trans (ih.cons t)

/-- Ordered insertion preserves the non-increasing-by-length ordering. -/
theorem insertDesc_pairwise (t : SessionToken) (l : List SessionToken)
    (h : l.Pairwise (fun a b => b.length ≤ a.length)) :
    (insertDesc t l).Pairwise (fun a b => b.length ≤ a.length) := by
  induction l with
  | nil => exact List.pairwise_singleton _ _
  | cons u us ih =>
    rw [List.pairwise_cons] at h
    obtain ⟨hu, hus⟩ := h
    unfold insertDesc
    split
    next hle =>
      rw [List.pairwise_cons]
      refine ⟨?_, ih hus⟩
      intro b hb
      rcases List.mem_cons.mp ((insertDesc_perm t us).mem_iff.mp hb) with
        rfl | hb
      · exact hle
      · exact hu b hb
    next hgt =>
      rw [List.pairwise_cons]
      refine ⟨?_, by rw [List.pairwise_cons]; exact ⟨hu, hus⟩⟩
      intro b hb
      rcases List.mem_cons.mp hb with rfl | hb
      · exact Nat.le_of_lt (Nat.lt_of_not_le hgt)
      · exact Nat.le_trans (hu b hb) (Nat.le_of_lt (Nat.lt_of_not_le hgt))

/-- The descending insertion sort produces a non-increasing-by-length
list. -/
theorem sortByLengthDesc_pairwise (l : List SessionToken) :
    (sortByLengthDesc l).Pairwise (fun a b => b.length ≤ a.length) := by
  induction l with
  | nil => exact List.Pairwise.nil
  | cons t l ih => exact insertDesc_pairwise t _ ih

/-- C4: `extractSessionTokens` returns exactly (a permutation of) the
tokens of the cookies whose value length is over 100, every returned
token has length over 100, and the output is non-increasing by length. -/
theorem extractSessionTokens_spec (cookies : List Cookie) :
    List.Perm (extractSessionTokens cookies)
      ((cookies.filter (fun c => decide (c.value.length > 100))).map
        (fun c => ⟨c.name, c.value, c.value.length⟩)) ∧
    (∀ t ∈ extractSessionTokens cookies, 100 < t.length) ∧
    (extractSessionTokens cookies).Pairwise
      (fun a b => b.length ≤ a.length) := by
  refine ⟨sortByLengthDesc_perm _, ?_, sortByLengthDesc_pairwise _⟩
  intro t ht
  have hmem := (sortByLengthDesc_perm _).mem_iff.mp ht
  obtain ⟨c, hc, rfl⟩ := List.mem_map.mp hmem
  have := (List.mem_filter.mp hc).2
  simpa using this

/-- Joining with a leading `'='` cannot create a `"; "` occurrence at the
junction: `'='` matches neither separator character. -/
theorem containsSep_eq_cons (value : List Char)
    (hv : containsSep value = false) :
    containsSep ('=' :: value) = false := by
  cases value with
  | nil => rfl
  | cons w ws => simpa [containsSep] using hv

/-- A serialized `name=value` piece contains no `"; "` when neither the
name nor the value does. -/
theorem containsSep_cookiePiece (name value : List Char)
    (hn : containsSep name = false) (hv : containsSep value = false) :
    containsSep (name ++ '=' :: value) = false := by
  induction name with
  | nil => exact containsSep_eq_cons value hv
  | cons c name' ih =>
    cases name' with
    | nil =>
      have : containsSep ('=' :: value) = false :=
        containsSep_eq_cons value hv
      simpa [containsSep] using this
    | cons d name'' =>
      by_cases hcd : c = ';' ∧ d = ' '
      · simp [containsSep, hcd] at hn
      · rw [List.cons_append] at *
        rw [List.cons_append] at *
        have hn' : containsSep (d :: name'') = false := by
          simpa [containsSep, hcd] using hn
        have goal' := ih hn'
        simpa [containsSep, hcd] using goal'

/-- Splitting a separator-free sequence on `"; "` yields it whole. -/
theorem splitSemi_no_sep (a : List Char) (h : containsSep a = false) :
    splitSemi a = [a] := by
  induction a with
  | nil => rfl
  | cons c a' ih =>
    cases a' with
    | nil => rfl
    | cons d a'' =>
      by_cases hcd : c = ';' ∧ d = ' '
      · simp [containsSep, hcd] at h
      · have h' : containsSep (d :: a'') = false := by
          simpa [containsSep, hcd] using h
        simp [splitSemi, hcd, ih h', consHead]

/-- Splitting `a ++ "; " ++ b` on `"; "` cuts first at the junction when
`a` is separator-free. -/
theorem splitSemi_append_sep (a b : List Char)
    (h : containsSep a = false) :
    splitSemi (a ++ ';' :: ' ' :: b) = a :: splitSemi b := by
  induction a with
  | nil => simp [splitSemi]
  | cons c a' ih =>
    cases a' with
    | nil =>
      have hns : ¬(c = ';' ∧ ';' = ' ') := by
        rintro ⟨_, hss⟩; cases hss
      simp [splitSemi, hns, consHead]
    | cons d a'' =>
      by_cases hcd : c = ';' ∧ d = ' '
      · simp [containsSep, hcd] at h
      · have h' : containsSep (d :: a'') = false := by
          simpa [containsSep, hcd] using h
        have := ih h'
        rw [List.cons_append] at this ⊢
        simp only [List.cons_append] at this ⊢
        simp [splitSemi, hcd, this, consHead]

/-- Splitting a `name=value` piece at its first `'='` recovers the pair
when the name contains no `'='`. -/
theorem splitFirstEq_cookiePiece (name value : List Char)
    (h : '=' ∉ name) :
    splitFirstEq (name ++ '=' :: value) = (name, value) := by
  induction name with
  | nil => simp [splitFirstEq]
  | cons c name' ih =>
    have hc : ¬(c = '=') := fun hh => h (hh ▸ List.mem_cons_self c name')
    have ih' := ih (fun hm => h (List.mem_cons_of_mem c hm))
    simp [splitFirstEq, hc, ih']

/-- Re-splitting `buildCookieString` recovers the exact (name, value)
list when every cookie is separator-free. -/
theorem resplit_buildCookieString (cs : List Cookie) (hne : cs ≠ [])
    (h : ∀ c ∈ cs, containsSep c.name = false ∧
      containsSep c.value = false ∧ '=' ∉ c.name) :
    resplitCookieString (buildCookieString cs) =
      cs.map (fun c => (c.name, c.value)) := by
  induction cs with
  | nil => exact absurd rfl hne
  | cons c cs' ih =>
    obtain ⟨hn, hv, he⟩ := h c (List.mem_cons_self c cs')
    have hpiece : containsSep (cookiePiece c) = false :=
      containsSep_cookiePiece c.name c.value hn hv
    cases cs' with
    | nil =>
      show (splitSemi (cookiePiece c)).map splitFirstEq = _
      rw [splitSemi_no_sep _ hpiece]
      simp [splitFirstEq_cookiePiece c.name c.value he, cookiePiece]
    | cons c₂ cs'' =>
      have hrest := ih (by simp)
        (fun c' hc' => h c' (List.mem_cons_of_mem c hc'))
      show (splitSemi (cookiePiece c ++ ';' :: ' ' ::
        joinSepSC ((c₂ :: cs'').map cookiePiece))).map splitFirstEq = _
      rw [splitSemi_append_sep _ _ hpiece, List.map_cons]
      simp only [cookiePiece]
      rw [splitFirstEq_cookiePiece c.name c.value he, List.map_cons]
      exact congrArg _ hrest

/-- C3 (amended): for a nonempty cookie sequence whose names contain no
`'='` and no `"; "` and whose values contain no `"; "`, splitting
`buildCookieString` on `"; "` and each piece on its first `'='` recovers
exactly the (name, value) multiset. -/
theorem buildCookieString_roundtrip (cs : List Cookie) (hne : cs ≠ [])
    (h : ∀ c ∈ cs, containsSep c.name = false ∧
      containsSep c.value = false ∧ '=' ∉ c.name) :
    (↑(resplitCookieString (buildCookieString cs)) :
      Multiset (List Char × List Char)) =
      ↑(cs.map (fun c => (c.name, c.value))) := by
  rw [resplit_buildCookieString cs hne h]

/-- Witness for C3 at a concrete two-cookie jar. -/
theorem buildCookieString_roundtrip_witness :
    (↑(resplitCookieString (buildCookieString
        [mkCookie "sid" "abc123", mkCookie "auth" "xyz"])) :
      Multiset (List Char × List Char)) =
      ↑([mkCookie "sid" "abc123", mkCookie "auth" "xyz"].map
        (fun c => (c.name, c.value))) :=
  buildCookieString_roundtrip
    [mkCookie "sid" "abc123", mkCookie "auth" "xyz"]
    (by decide) (by decide)

/-- C3 (counterexample): the round-trip as universally stated fails on
the empty sequence (re-splitting the empty string yields one empty pair)
and on a value containing the separator `"; "` (the value is cut in
two). -/
theorem buildCookieString_roundtrip_counterexample :
    resplitCookieString (buildCookieString []) ≠
      ([] : List Cookie).map (fun c => (c.name, c.value)) ∧
    (↑(resplitCookieString (buildCookieString [mkCookie "a" "b; c=d"])) :
      Multiset (List Char × List Char)) ≠
      ↑([mkCookie "a" "b; c=d"].map (fun c => (c.name, c.value))) := by
  constructor
  · decide
  · decide

/-- A syntactically valid request used by concrete runs. -/
def reqStd : LoginRequest :=
  ⟨some "https://app.example/home", some "https://app.example/login",
   some "alice", some "pw", some "https://n8n.example/webhook/abc"⟩

/-- A request whose body lacks `webhookUrl`. -/
def reqNoWebhook : LoginRequest :=
  ⟨some "https://app.example/home", some "https://app.example/login",
   some "alice", some "pw", none⟩

/-- An environment in which every effect succeeds and the context
strategy yields one cookie. -/
def envSuccess : Env :=
  ⟨true, true, true, [true], true, true, true,
   [mkCookie "sessionid" "s3cr3t"], [], fun _ => .http 200 "ok"⟩

/-- An environment in which login automation succeeds but both extraction
strategies return zero cookies. -/
def envEmptyCookies : Env :=
  ⟨true, true, true, [true], true, true, true, [], [],
   fun _ => .http 200 "ok"⟩

/-- An environment in which extraction succeeds but every webhook attempt
throws a transport error. -/
def envWebhookFail : Env :=
  ⟨true, true, true, [true], true, true, true,
   [mkCookie "sessionid" "s3cr3t"], [], fun _ => .fault "connection refused"⟩

/-- C5 (amended): when both strategies return zero cookies on a run that
reached extraction, the run fails (HTTP 500, status error) with the
dedicated error whose message begins with the quoted phrase (the source
appends an explanation: `"No cookies extracted from any method. Login may
have failed or cookies are blocked."`), and no webhook POST is made. -/
theorem extraction_empty_run_fails (req : LoginRequest) (env : Env)
    (h1 : validRequest req = true)
    (h2 : webhookMarkerOk (req.webhookUrl.getD "") = true)
    (h3 : env.importOk = true) (h4 : env.launchOk = true)
    (h5 : env.contextOk = true)
    (h6 : (navTry env.navOutcomes).1 = true)
    (h7 : env.usernameFieldFound = true)
    (h8 : env.passwordFieldFound = true)
    (h9 : env.submitFound = true)
    (hctx : env.contextCookies = []) (hjs : env.jsCookies = []) :
    (routePOST req env).status = "error" ∧
    (routePOST req env).httpStatus = 500 ∧
    (routePOST req env).message =
      "No cookies extracted from any method. Login may have failed or cookies are blocked." ∧
    List.isPrefixOf "No cookies extracted from any method".toList
      (routePOST req env).message.toList = true ∧
    (routePOST req env).webhookAttempts = 0 ∧
    (routePOST req env).webhookSent = false := by
  have hinner : innerRun env = Except.error
      "No cookies extracted from any method. Login may have failed or cookies are blocked." := by
    unfold innerRun
    simp [h6, h7, h8, h9, routeMergeCookies, hctx, hjs]
  refine ⟨?_, ?_, ?_, ?_, ?_, ?_⟩ <;>
    simp [routePOST, h1, h2, h3, h4, h5, hinner]

/-- Witness for C5 at a concrete request and environment. -/
theorem extraction_empty_run_fails_witness :
    (routePOST reqStd envEmptyCookies).status = "error" ∧
    (routePOST reqStd envEmptyCookies).httpStatus = 500 ∧
    (routePOST reqStd envEmptyCookies).message =
      "No cookies extracted from any method. Login may have failed or cookies are blocked." ∧
    List.isPrefixOf "No cookies extracted from any method".toList
      (routePOST reqStd envEmptyCookies).message.toList = true ∧
    (routePOST reqStd envEmptyCookies).webhookAttempts = 0 ∧
    (routePOST reqStd envEmptyCookies).webhookSent = false :=
  extraction_empty_run_fails reqStd envEmptyCookies (by decide) (by decide)
    (by decide) (by decide) (by decide) (by decide) (by decide) (by decide)
    (by decide) (by decide) (by decide)

/-- C5 (counterexample): the surfaced message is not the claim's literal
string `"no cookies extracted from any method"` — the source capitalizes
it and appends an explanation. -/
theorem extraction_error_message_counterexample :
    envEmptyCookies.contextCookies = [] ∧ envEmptyCookies.jsCookies = [] ∧
    (routePOST reqStd envEmptyCookies).status = "error" ∧
    (routePOST reqStd envEmptyCookies).message ≠
      "no cookies extracted from any method" := by
  refine ⟨rfl, rfl, ?_, ?_⟩ <;> decide

/-- Unfolding equation of the delivery loop: exhausted attempts. -/
theorem runWebhookAux_zero (resps : Nat → WebhookResp) (attempt : Nat)
    (err : Option String) (d : Nat) :
    runWebhookAux resps attempt 0 err d = ⟨false, err, 3, d⟩ := rfl

/-- Unfolding equation of the delivery loop: an HTTP response. -/
theorem runWebhookAux_succ_http (resps : Nat → WebhookResp)
    (attempt k : Nat) (err : Option String) (d : Nat) (s : Nat)
    (b : String) (hr : resps attempt = .http s b) :
    runWebhookAux resps attempt (k + 1) err d =
      if 200 ≤ s ∧ s < 300 then ⟨true, err, attempt, d⟩
      else runWebhookAux resps (attempt + 1) k
        (webhookFailureMsg (.http s b)) d := by
  conv_lhs => rw [runWebhookAux, hr]

/-- Unfolding equation of the delivery loop: a transport error. -/
theorem runWebhookAux_succ_fault (resps : Nat → WebhookResp)
    (attempt k : Nat) (err : Option String) (d : Nat) (m : String)
    (hr : resps attempt = .fault m) :
    runWebhookAux resps attempt (k + 1) err d =
      runWebhookAux resps (attempt + 1) k (some m)
        (if 1 ≤ k then d + 1 else d) := by
  conv_lhs => rw [runWebhookAux, hr]

/-- The delivery loop never makes more than 3 attempts. -/
theorem runWebhookAux_attempts_le (resps : Nat → WebhookResp) :
    ∀ (remaining attempt : Nat) (err : Option String) (d : Nat),
      attempt + remaining = 4 →
      (runWebhookAux resps attempt remaining err d).attempts ≤ 3 := by
  intro remaining
  induction remaining with
  | zero => intro attempt err d _; rw [runWebhookAux_zero]
  | succ k ih =>
    intro attempt err d h
    cases hr : resps attempt with
    | http s b =>
      rw [runWebhookAux_succ_http resps attempt k err d s b hr]
      by_cases h2 : 200 ≤ s ∧ s < 300
      · rw [if_pos h2]; show attempt ≤ 3; omega
      · rw [if_neg h2]; exact ih (attempt + 1) _ d (by omega)
    | fault m =>
      rw [runWebhookAux_succ_fault resps attempt k err d m hr]
      exact ih (attempt + 1) _ _ (by omega)

/-- When the loop reports success, the attempt it stopped at got a 2xx
response and every earlier attempt did not. -/
theorem runWebhookAux_sent_first (resps : Nat → WebhookResp) :
    ∀ (remaining attempt : Nat) (err : Option String) (d : Nat),
      (runWebhookAux resps attempt remaining err d).sent = true →
      respOk (resps (runWebhookAux resps attempt remaining err d).attempts)
          = true ∧
      ∀ k, attempt ≤ k →
        k < (runWebhookAux resps attempt remaining err d).attempts →
        respOk (resps k) = false := by
  intro remaining
  induction remaining with
  | zero => intro attempt err d hs; rw [runWebhookAux_zero] at hs; cases hs
  | succ k ih =>
    intro attempt err d hs
    cases hr : resps attempt with
    | http s b =>
      rw [runWebhookAux_succ_http resps attempt k err d s b hr] at hs ⊢
      by_cases h2 : 200 ≤ s ∧ s < 300
      · rw [if_pos h2] at hs ⊢
        refine ⟨?_, ?_⟩
        · show respOk (resps attempt) = true
          rw [hr]
          simp [respOk]
          omega
        · intro j hj1 hj2
          show respOk (resps j) = false
          exact absurd (Nat.lt_of_le_of_lt hj1 hj2) (Nat.lt_irrefl _)
      · rw [if_neg h2] at hs ⊢
        obtain ⟨hok, hprev⟩ := ih (attempt + 1) _ d hs
        refine ⟨hok, ?_⟩
        intro j hj1 hj2
        rcases Nat.eq_or_lt_of_le hj1 with rfl | hlt
        · rw [hr]; simp [respOk]; omega
        · exact hprev j hlt hj2
    | fault m =>
      rw [runWebhookAux_succ_fault resps attempt k err d m hr] at hs ⊢
      obtain ⟨hok, hprev⟩ := ih (attempt + 1) _ _ hs
      refine ⟨hok, ?_⟩
      intro j hj1 hj2
      rcases Nat.eq_or_lt_of_le hj1 with rfl | hlt
      · rw [hr]; rfl
      · exact hprev j hlt hj2

/-- When the loop reports failure, all 3 attempts ran and every response
in the window was a failure. -/
theorem runWebhookAux_not_sent (resps : Nat → WebhookResp) :
    ∀ (remaining attempt : Nat) (err : Option String) (d : Nat),
      (runWebhookAux resps attempt remaining err d).sent = false →
      (runWebhookAux resps attempt remaining err d).attempts = 3 ∧
      ∀ k, attempt ≤ k → k < attempt + remaining →
        respOk (resps k) = false := by
  intro remaining
  induction remaining with
  | zero =>
    intro attempt err d _
    rw [runWebhookAux_zero]
    exact ⟨rfl, fun j hj1 hj2 => absurd (Nat.lt_of_le_of_lt hj1 hj2)
      (by omega)⟩
  | succ k ih =>
    intro attempt err d hs
    cases hr : resps attempt with
    | http s b =>
      rw [runWebhookAux_succ_http resps attempt k err d s b hr] at hs ⊢
      by_cases h2 : 200 ≤ s ∧ s < 300
      · rw [if_pos h2] at hs; cases hs
      · rw [if_neg h2] at hs ⊢
        obtain ⟨ha, hprev⟩ := ih (attempt + 1) _ d hs
        refine ⟨ha, ?_⟩
        intro j hj1 hj2
        rcases Nat.eq_or_lt_of_le hj1 with rfl | hlt
        · rw [hr]; simp [respOk]; omega
        · exact hprev j hlt (by omega)
    | fault m =>
      rw [runWebhookAux_succ_fault resps attempt k err d m hr] at hs ⊢
      obtain ⟨ha, hprev⟩ := ih (attempt + 1) _ _ hs
      refine ⟨ha, ?_⟩
      intro j hj1 hj2
      rcases Nat.eq_or_lt_of_le hj1 with rfl | hlt
      · rw [hr]; rfl
      · exact hprev j hlt (by omega)

/-- When the loop reports failure, the recorded error is that of the
final (third) attempt — with any response body truncated to 100
characters by `webhookFailureMsg`. -/
theorem runWebhookAux_lastError (resps : Nat → WebhookResp) :
    ∀ (remaining attempt : Nat) (err : Option String) (d : Nat),
      attempt + remaining = 4 → 1 ≤ remaining →
      (runWebhookAux resps attempt remaining err d).sent = false →
      (runWebhookAux resps attempt remaining err d).lastError =
        webhookFailureMsg (resps 3) := by
  intro remaining
  induction remaining with
  | zero => intro attempt err d _ h1; omega
  | succ k ih =>
    intro attempt err d h4 _ hs
    cases k with
    | zero =>
      have hatt : attempt = 3 := by omega
      subst hatt
      cases hr : resps 3 with
      | http s b =>
        rw [runWebhookAux_succ_http resps 3 0 err d s b hr] at hs ⊢
        by_cases h2 : 200 ≤ s ∧ s < 300
        · rw [if_pos h2] at hs; cases hs
        · rw [if_neg h2, runWebhookAux_zero]
      | fault m =>
        rw [runWebhookAux_succ_fault resps 3 0 err d m hr,
          runWebhookAux_zero]
        rfl
    | succ j =>
      cases hr : resps attempt with
      | http s b =>
        rw [runWebhookAux_succ_http resps attempt (j + 1) err d s b hr]
          at hs ⊢
        by_cases h2 : 200 ≤ s ∧ s < 300
        · rw [if_pos h2] at hs; cases hs
        · rw [if_neg h2] at hs ⊢
          exact ih (attempt + 1) _ d (by omega) (by omega) hs
      | fault m =>
        rw [runWebhookAux_succ_fault resps attempt (j + 1) err d m hr]
          at hs ⊢
        exact ih (attempt + 1) _ _ (by omega) (by omega) hs

/-- When no attempt throws a transport error, the loop performs no retry
delay: a non-2xx HTTP response loops again immediately. -/
theorem runWebhookAux_delays_no_fault (resps : Nat → WebhookResp)
    (hf : ∀ k, isFault (resps k) = false) :
    ∀ (remaining attempt : Nat) (err : Option String) (d : Nat),
      (runWebhookAux resps attempt remaining err d).delays = d := by
  intro remaining
  induction remaining with
  | zero => intro attempt err d; rfl
  | succ k ih =>
    intro attempt err d
    cases hr : resps attempt with
    | http s b =>
      rw [runWebhookAux_succ_http resps attempt k err d s b hr]
      by_cases h2 : 200 ≤ s ∧ s < 300
      · rw [if_pos h2]
      · rw [if_neg h2]; exact ih (attempt + 1) _ d
    | fault m =>
      have := hf attempt
      rw [hr] at this
      cases this

/-- The delay counter never decreases. -/
theorem runWebhookAux_delays_mono (resps : Nat → WebhookResp) :
    ∀ (remaining attempt : Nat) (err : Option String) (d : Nat),
      d ≤ (runWebhookAux resps attempt remaining err d).delays := by
  intro remaining
  induction remaining with
  | zero => intro attempt err d; exact Nat.le_refl d
  | succ k ih =>
    intro attempt err d
    cases hr : resps attempt with
    | http s b =>
      rw [runWebhookAux_succ_http resps attempt k err d s b hr]
      by_cases h2 : 200 ≤ s ∧ s < 300
      · rw [if_pos h2]
      · rw [if_neg h2]; exact ih (attempt + 1) _ d
    | fault m =>
      rw [runWebhookAux_succ_fault resps attempt k err d m hr]
      refine Nat.le_trans ?_ (ih (attempt + 1) (some m) _)
      split <;> omega

/-- A transport error on the first attempt forces at least one delay. -/
theorem runWebhook_fault_first_delay (resps : Nat → WebhookResp)
    (hf : isFault (resps 1) = true) :
    1 ≤ (runWebhook resps).delays := by
  unfold runWebhook
  cases hr : resps 1 with
  | http s b => rw [hr] at hf; cases hf
  | fault m =>
    rw [runWebhookAux_succ_fault resps 1 2 none 0 m hr]
    have := runWebhookAux_delays_mono resps 2 2 (some m)
      (if 1 ≤ 2 then 0 + 1 else 0)
    simpa using this

/-- A webhook endpoint that returns HTTP 500 on attempts 1-2 and HTTP 200
on attempt 3, from the spec's test property. -/
def exWebhook500 : Nat → WebhookResp :=
  fun k => if k ≤ 2 then .http 500 "server error" else .http 200 ""

/-- A webhook endpoint whose first response is a non-2xx HTTP response
and whose later responses succeed. -/
def exWebhookHttpFail1 : Nat → WebhookResp :=
  fun k => if k = 1 then .http 500 "oops" else .http 200 ""

/-- C7 (amended): on a run that reaches delivery, at most 3 webhook POST
attempts are made; success is the first 2xx response (500, 500, 200 gives
`sent` after exactly 3 attempts); each failure is recorded as the latest
error (response bodies truncated to 100 characters); after exhausting the
attempts the run still reports success with `webhookSent = false` and the
final attempt's error; and the fixed ~2s retry delay only happens for
transport errors — a non-2xx HTTP response is retried immediately. -/
theorem webhook_delivery_policy (req : LoginRequest) (env : Env)
    (h1 : validRequest req = true)
    (h2 : webhookMarkerOk (req.webhookUrl.getD "") = true)
    (h3 : env.importOk = true) (h4 : env.launchOk = true)
    (h5 : env.contextOk = true)
    (h6 : (navTry env.navOutcomes).1 = true)
    (h7 : env.usernameFieldFound = true)
    (h8 : env.passwordFieldFound = true)
    (h9 : env.submitFound = true)
    (hne : (routeMergeCookies env.contextCookies env.jsCookies).length ≠ 0) :
    (runWebhook env.webhookResps).attempts ≤ 3 ∧
    ((runWebhook env.webhookResps).sent = true →
      respOk (env.webhookResps (runWebhook env.webhookResps).attempts)
          = true ∧
      ∀ k, 1 ≤ k → k < (runWebhook env.webhookResps).attempts →
        respOk (env.webhookResps k) = false) ∧
    ((runWebhook env.webhookResps).sent = false →
      (runWebhook env.webhookResps).attempts = 3 ∧
      (∀ k, 1 ≤ k → k ≤ 3 → respOk (env.webhookResps k) = false) ∧
      (runWebhook env.webhookResps).lastError =
        webhookFailureMsg (env.webhookResps 3)) ∧
    (routePOST req env).status = "success" ∧
    (routePOST req env).httpStatus = 200 ∧
    (routePOST req env).webhookSent = (runWebhook env.webhookResps).sent ∧
    ((runWebhook env.webhookResps).sent = false →
      (routePOST req env).webhookError =
        webhookFailureMsg (env.webhookResps 3)) ∧
    ((∀ k, isFault (env.webhookResps k) = false) →
      (runWebhook env.webhookResps).delays = 0) ∧
    (isFault (env.webhookResps 1) = true →
      1 ≤ (runWebhook env.webhookResps).delays) ∧
    (runWebhook exWebhook500).sent = true ∧
    (runWebhook exWebhook500).attempts = 3 := by
  have hinner : innerRun env = Except.ok
      ⟨routeMergeCookies env.contextCookies env.jsCookies,
       routeMergeMethod env.contextCookies env.jsCookies,
       identifyCriticalCookies
         (routeMergeCookies env.contextCookies env.jsCookies),
       extractSessionTokens
         (routeMergeCookies env.contextCookies env.jsCookies),
       buildCookieString
         (routeMergeCookies env.contextCookies env.jsCookies),
       runWebhook env.webhookResps⟩ := by
    unfold innerRun
    simp [h6, h7, h8, h9, hne]
  refine ⟨runWebhookAux_attempts_le env.webhookResps 3 1 none 0 rfl,
    ?_, ?_, ?_, ?_, ?_, ?_, ?_, ?_, by decide, by decide⟩
  · exact runWebhookAux_sent_first env.webhookResps 3 1 none 0
  · intro hs
    obtain ⟨ha, hall⟩ := runWebhookAux_not_sent env.webhookResps 3 1 none 0 hs
    refine ⟨ha, ?_, ?_⟩
    · intro k hk1 hk2
      exact hall k hk1 (by omega)
    · exact runWebhookAux_lastError env.webhookResps 3 1 none 0 rfl
        (by omega) hs
  · simp [routePOST, h1, h2, h3, h4, h5, hinner]
  · simp [routePOST, h1, h2, h3, h4, h5, hinner]
  · simp [routePOST, h1, h2, h3, h4, h5, hinner]
  · intro hs
    simp [routePOST, h1, h2, h3, h4, h5, hinner, hs]
    exact runWebhookAux_lastError env.webhookResps 3 1 none 0 rfl
      (by omega) hs
  · intro hf
    exact runWebhookAux_delays_no_fault env.webhookResps hf 3 1 none 0
  · exact runWebhook_fault_first_delay env.webhookResps

/-- Witness for C7 at a concrete request and environment whose webhook
endpoint always throws a transport error. -/
theorem webhook_delivery_policy_witness :
    (runWebhook envWebhookFail.webhookResps).attempts ≤ 3 ∧
    ((runWebhook envWebhookFail.webhookResps).sent = true →
      respOk (envWebhookFail.webhookResps
          (runWebhook envWebhookFail.webhookResps).attempts) = true ∧
      ∀ k, 1 ≤ k → k < (runWebhook envWebhookFail.webhookResps).attempts →
        respOk (envWebhookFail.webhookResps k) = false) ∧
    ((runWebhook envWebhookFail.webhookResps).sent = false →
      (runWebhook envWebhookFail.webhookResps).attempts = 3 ∧
      (∀ k, 1 ≤ k → k ≤ 3 →
        respOk (envWebhookFail.webhookResps k) = false) ∧
      (runWebhook envWebhookFail.webhookResps).lastError =
        webhookFailureMsg (envWebhookFail.webhookResps 3)) ∧
    (routePOST reqStd envWebhookFail).status = "success" ∧
    (routePOST reqStd envWebhookFail).httpStatus = 200 ∧
    (routePOST reqStd envWebhookFail).webhookSent =
      (runWebhook envWebhookFail.webhookResps).sent ∧
    ((runWebhook envWebhookFail.webhookResps).sent = false →
      (routePOST reqStd envWebhookFail).webhookError =
        webhookFailureMsg (envWebhookFail.webhookResps 3)) ∧
    ((∀ k, isFault (envWebhookFail.webhookResps k) = false) →
      (runWebhook envWebhookFail.webhookResps).delays = 0) ∧
    (isFault (envWebhookFail.webhookResps 1) = true →
      1 ≤ (runWebhook envWebhookFail.webhookResps).delays) ∧
    (runWebhook exWebhook500).sent = true ∧
    (runWebhook exWebhook500).attempts = 3 :=
  webhook_delivery_policy reqStd envWebhookFail (by decide) (by decide)
    (by decide) (by decide) (by decide) (by decide) (by decide) (by decide)
    (by decide) (by decide)

/-- C7 (counterexample): a non-2xx HTTP response on a non-final attempt
is retried with no delay at all — the ~2s `setTimeout` runs only in the
transport-error `catch` branch, not after a failed HTTP response. -/
theorem webhook_http_retry_no_delay_counterexample :
    respOk (exWebhookHttpFail1 1) = false ∧
    isFault (exWebhookHttpFail1 1) = false ∧
    (runWebhook exWebhookHttpFail1).sent = true ∧
    (runWebhook exWebhookHttpFail1).attempts = 2 ∧
    (runWebhook exWebhookHttpFail1).delays = 0 := by
  decide

/-- Witness for C6: a fully successful concrete run acquires the browser
and closes it exactly once. -/
theorem browser_session_released_once_witness :
    (routePOST reqStd envSuccess).browserAcquired = true ∧
    (routePOST reqStd envSuccess).closeCount = 1 :=
  ⟨by decide, browser_session_released_once reqStd envSuccess (by decide)⟩

/-- Witness for C8: a request with no `webhookUrl` is rejected with 400
and no browser work. -/
theorem validation_rejected_before_browser_witness :
    (routePOST reqNoWebhook envSuccess).httpStatus = 400 ∧
    (routePOST reqNoWebhook envSuccess).status = "error" ∧
    (routePOST reqNoWebhook envSuccess).browserAcquired = false ∧
    (routePOST reqNoWebhook envSuccess).closeCount = 0 ∧
    (routePOST reqNoWebhook envSuccess).navAttempts = 0 ∧
    (routePOST reqNoWebhook envSuccess).webhookAttempts = 0 :=
  validation_rejected_before_browser reqNoWebhook envSuccess
    (Or.inl (by decide))

end LoginAutomation
